import Mathlib

/-!
Shallow embedding of the PDF-compression pipeline of FileFlowConvert:
  - src/server/features/pdf_compress/service.py  (the pipeline itself)
  - src/server/pdf_compress_service.py           (CLI wrapper building the JSON result)
  - src/server/routes/pdf_compress.py            (route handler building the result dict)

External effects (the qpdf/Ghostscript child processes, pikepdf, the
filesystem) are modelled as an environment of fallible functions on byte
sequences; `Except.error` stands for a raised Python exception.  Log calls
are modelled as a list of entries tagged with the stream they are printed
to.  Numeric formatting in log text (Python f-string ":.1f") is abstracted;
the channel and the leading text of each message follow the source.
-/

namespace FileFlow

/-- Byte sequences; only contents and length matter to the pipeline. -/
abbrev Bytes := List Nat

/-- The stream a `print` call writes to. -/
inductive Channel
  | stdout
  | stderr
deriving DecidableEq

/-- One printed diagnostic line: its stream and its text. -/
structure LogEntry where
  chan : Channel
  msg : String
deriving DecidableEq

/-- A numeric Python value, as accepted by the
`isinstance(options["imageQuality"], (int, float))` guard in
service.py:158.  Python floats are modelled by their exact rational
value; a Python bool is an int (0 or 1). -/
inductive PyNum
  | int (z : ℤ)
  | float (q : ℚ)
deriving DecidableEq

/-- Python `int()` on a number: identity on ints, truncation toward zero
on floats (service.py:159). -/
def pyInt : PyNum → ℤ
  | .int z => z
  | .float q => if 0 ≤ q then ⌊q⌋ else ⌈q⌉

/-- `max(10, min(95, int(x)))` from service.py:159. -/
def clampQuality (n : PyNum) : ℤ := max 10 (min 95 (pyInt n))

/-- One entry of the GS_LEVELS table (service.py:106-135). -/
structure Profile where
  ColorImageResolution : ℤ
  GrayImageResolution : ℤ
  MonoImageResolution : ℤ
  JPEGQuality : ℤ
  UseJPX : Bool
deriving DecidableEq

def lowProfile : Profile :=
  { ColorImageResolution := 300, GrayImageResolution := 300,
    MonoImageResolution := 600, JPEGQuality := 85, UseJPX := false }

def mediumProfile : Profile :=
  { ColorImageResolution := 200, GrayImageResolution := 200,
    MonoImageResolution := 600, JPEGQuality := 70, UseJPX := false }

def highProfile : Profile :=
  { ColorImageResolution := 150, GrayImageResolution := 150,
    MonoImageResolution := 600, JPEGQuality := 60, UseJPX := true }

def maximumProfile : Profile :=
  { ColorImageResolution := 72, GrayImageResolution := 72,
    MonoImageResolution := 300, JPEGQuality := 30, UseJPX := true }

/-- The module-level GS_LEVELS dictionary (service.py:106-135). -/
def GS_LEVELS : List (String × Profile) :=
  [("low", lowProfile), ("medium", mediumProfile),
   ("high", highProfile), ("maximum", maximumProfile)]

/-- The options dict of compress_pdf (service.py:137-163).  A field is
`none` when the key is absent; `imageQuality` is also `none` when the
value present is not an int or float (the isinstance guard skips it).
JSON booleans are modelled as booleans (the `bool(...)` coercion on a
bool is the identity). -/
structure Options where
  level : Option String
  imageQuality : Option PyNum
  removeMetadata : Option Bool
  optimizeEmbeddedImages : Option Bool
deriving DecidableEq

/-- Python `str.lower()` restricted to the ASCII range of the level
names, as a structural map over the characters. -/
def pyLower (s : String) : String := ⟨s.data.map Char.toLower⟩

/-- `(options.get("level") or "medium").lower()` (service.py:154):
an absent or empty (falsy) level falls back to "medium". -/
def resolveLevel (lvl : Option String) : String :=
  pyLower (match lvl with
           | none => "medium"
           | some s => if s = "" then "medium" else s)

/-- `GS_LEVELS.get(level, GS_LEVELS["medium"])` (service.py:155). -/
def lookupLevel (s : String) : Profile :=
  (GS_LEVELS.lookup s).getD mediumProfile

/-- The option-resolution step of compress_pdf (service.py:153-160):
take a copy of the selected level profile and, when a numeric
imageQuality is supplied, overwrite the copy's JPEGQuality with the
clamped value. -/
def resolveCfg (opts : Options) : Profile :=
  let base := lookupLevel (resolveLevel opts.level)
  match opts.imageQuality with
  | some n => { base with JPEGQuality := clampQuality n }
  | none => base

/-- Modelled from the spec: "clamps a caller-supplied quality override
into [10, 95] inclusive, rounding to the nearest integer".  Used only to
compare the spec's wording with the code's `int()` truncation. -/
def specResolveQuality (q : ℚ) : ℤ := max 10 (min 95 (round q))

/-- `/screen`, `/ebook` or `/prepress` by quality bucketing
(service.py:37-42). -/
def pdfSetting (jpegQuality : ℤ) : String :=
  if jpegQuality ≤ 50 then "/screen"
  else if jpegQuality ≤ 70 then "/ebook"
  else "/prepress"

/-- The fixed flags of the gs invocation (service.py:44-52). -/
def gsBase (cfg : Profile) : List String :=
  ["gs", "-sDEVICE=pdfwrite", "-dCompatibilityLevel=1.4",
   "-dPDFSETTINGS=" ++ pdfSetting cfg.JPEGQuality,
   "-dNOPAUSE", "-dBATCH", "-dSAFER"]

/-- The downsampling / resolution-cap flags (service.py:56-63). -/
def downsampleArgs (cfg : Profile) : List String :=
  ["-dDownsampleColorImages=true",
   "-dDownsampleGrayImages=true",
   "-dColorImageResolution=" ++ toString (max 72 cfg.ColorImageResolution),
   "-dGrayImageResolution=" ++ toString (max 72 cfg.GrayImageResolution),
   "-dColorImageDownsampleType=/Average",
   "-dGrayImageDownsampleType=/Average"]

/-- The trailing output/input file arguments (service.py:66). -/
def gsOutArgs (inPdf outPdf : String) : List String :=
  ["-sOutputFile=" ++ outPdf, inPdf]

/-- The full Ghostscript argument list built by _gs_lossy
(service.py:44-66): base flags, then the downsample flags only when
optimize_images is set and the JPEG quality is at most 50, then the
file arguments. -/
def gsCmd (cfg : Profile) (optimizeImages : Bool) (inPdf outPdf : String) : List String :=
  gsBase cfg
    ++ (if optimizeImages = true ∧ cfg.JPEGQuality ≤ 50 then downsampleArgs cfg else [])
    ++ gsOutArgs inPdf outPdf

/-- The qpdf argument list of _qpdf_lossless (service.py:21). -/
def qpdfCmd (inPdf outPdf : String) : List String :=
  ["qpdf", "--object-streams=generate", "--stream-data=compress", "--linearize",
   inPdf, outPdf]

/-- The external world of one pipeline run.  Each engine is a function
from its input bytes to either the produced output file's bytes or a
raised exception's message; `gs` additionally receives the argument
list _gs_lossy built for it.  `pikepdfProcess` stands for the whole
pikepdf open/edit/save block of _strip_metadata (service.py:84-98).
`depsOk`/`depsMsg` are the outcome of test_dependencies. -/
structure Env where
  qpdf : Bytes → Except String Bytes
  gs : List String → Bytes → Except String Bytes
  pikepdfProcess : Bytes → Except String Bytes
  depsOk : Bool
  depsMsg : String

/-- _gs_lossy (service.py:27-79): build the command, log it, run gs,
log and re-raise on failure. -/
def gsLossy (env : Env) (cfg : Profile) (optimizeImages : Bool)
    (inBytes : Bytes) : Except String Bytes × List LogEntry :=
  let cmd := gsCmd cfg optimizeImages "qpdf.pdf" "gs.pdf"
  let runLog : LogEntry := ⟨Channel.stderr, "Running Ghostscript: " ++ String.intercalate " " cmd⟩
  match env.gs cmd inBytes with
  | Except.error e =>
      (Except.error ("ghostscript failed: " ++ e),
       [runLog,
        ⟨Channel.stderr, "Ghostscript failed"⟩,
        ⟨Channel.stderr, "Ghostscript stderr: " ++ e⟩])
  | Except.ok out =>
      (Except.ok out, [runLog, ⟨Channel.stderr, "Ghostscript completed successfully"⟩])

/-- _strip_metadata (service.py:81-103): run the pikepdf block; on any
exception, copy the input verbatim to the output and print a warning —
with a bare print, i.e. to standard output. -/
def stripMetadata (process : Bytes → Except String Bytes) (inBytes : Bytes) :
    Bytes × List LogEntry :=
  match process inBytes with
  | Except.ok out => (out, [])
  | Except.error e =>
      (inBytes, [⟨Channel.stdout, "Warning: Metadata removal failed: " ++ e⟩])

/-- Step 3 of compress_pdf (service.py:196-204): keep the gs output
only when it is strictly smaller than the qpdf output. -/
def chosenArtifact (qpdfOut gsOut : Bytes) : Bytes :=
  if gsOut.length < qpdfOut.length then gsOut else qpdfOut

/-- compress_pdf (service.py:137-225).  The outer try/except is the
`Except.error` branches: any failing stage makes the function return
the original input bytes.  After a successful qpdf pass on an empty
input, the percentage in the qpdf log line (service.py:188) raises
ZeroDivisionError, which the same handler absorbs. -/
def compress_pdf (env : Env) (inBytes : Bytes) (opts : Options) :
    Bytes × List LogEntry :=
  let cfg := resolveCfg opts
  let optimizeImages := opts.optimizeEmbeddedImages.getD true
  let removeMeta := opts.removeMetadata.getD false
  let logs0 : List LogEntry :=
    [⟨Channel.stderr, "PDF compression: quality=" ++ toString cfg.JPEGQuality⟩,
     ⟨Channel.stderr, "Applying qpdf lossless compression..."⟩]
  match env.qpdf inBytes with
  | Except.error e =>
      (inBytes, logs0 ++ [⟨Channel.stderr, "Compression failed: qpdf failed: " ++ e⟩])
  | Except.ok qpdfOut =>
    if inBytes.length = 0 then
      (inBytes, logs0 ++ [⟨Channel.stderr, "Compression failed: division by zero"⟩])
    else
      let logs1 := logs0 ++
        [⟨Channel.stderr, "qpdf result: " ++ toString qpdfOut.length ++ " bytes"⟩,
         ⟨Channel.stderr, "Applying Ghostscript lossy compression..."⟩]
      match gsLossy env cfg optimizeImages qpdfOut with
      | (Except.error e, gsLogs) =>
          (inBytes, logs1 ++ gsLogs ++ [⟨Channel.stderr, "Compression failed: " ++ e⟩])
      | (Except.ok gsOut, gsLogs) =>
          let logs2 := logs1 ++ gsLogs ++
            [⟨Channel.stderr, "Ghostscript result: " ++ toString gsOut.length ++ " bytes"⟩,
             ⟨Channel.stderr,
              if gsOut.length < qpdfOut.length then "Using Ghostscript result (smaller)"
              else "Using qpdf result (smaller)"⟩]
          let chosen := chosenArtifact qpdfOut gsOut
          if removeMeta then
            let stripped := stripMetadata env.pikepdfProcess chosen
            (stripped.1,
             logs2 ++ [⟨Channel.stderr, "Removing metadata..."⟩] ++ stripped.2 ++
               [⟨Channel.stderr, "Metadata removal result: " ++ toString stripped.1.length ++ " bytes"⟩,
                ⟨Channel.stderr, "Final compression: " ++ toString stripped.1.length ++ " bytes"⟩])
          else
            (chosen,
             logs2 ++ [⟨Channel.stderr, "Final compression: " ++ toString chosen.length ++ " bytes"⟩])

/-- The caller-visible result record, shared shape of the JSON printed
by pdf_compress_service.main and the dict returned by
routes.handle_pdf_compress.  `compressionPct` holds the exact rational
value of the percentage (rounding to one decimal for display is
abstracted); fields are `none` when the corresponding key is absent. -/
structure ServiceResult where
  success : Bool
  originalSize : Option Nat
  compressedSize : Option Nat
  compressionPct : Option ℚ
  payload : Option Bytes
  errorMsg : Option String
deriving DecidableEq

/-- pdf_compress_service.main (pdf_compress_service.py:17-66), from the
dependency check on (argument parsing and file reading are the CLI
boundary and are outside the model).  The compression-ratio expression
(line 54) is not guarded: with empty input it raises ZeroDivisionError,
caught by the generic handler (line 61) which reports an error result.
Base64 transport encoding of the payload is abstracted. -/
def mainRun (env : Env) (pdfData : Bytes) (opts : Options) :
    ServiceResult × List LogEntry :=
  if env.depsOk = true then
    let r := compress_pdf env pdfData opts
    if pdfData.length = 0 then
      ({ success := false, originalSize := none, compressedSize := none,
         compressionPct := none, payload := none,
         errorMsg := some "division by zero" },
       r.2 ++ [⟨Channel.stderr, "ZeroDivisionError: division by zero"⟩])
    else
      ({ success := true, originalSize := some pdfData.length,
         compressedSize := some r.1.length,
         compressionPct := some ((((pdfData.length : ℚ) - (r.1.length : ℚ)) / (pdfData.length : ℚ)) * 100),
         payload := some r.1, errorMsg := none },
       r.2)
  else
    ({ success := false, originalSize := none, compressedSize := none,
       compressionPct := none, payload := none,
       errorMsg := some ("Dependencies not available: " ++ env.depsMsg) }, [])

/-- routes.handle_pdf_compress (routes/pdf_compress.py:20-64), from the
empty-input check on (JSON option parsing is outside the model).  Here
the ratio expression carries an explicit zero guard (line 51). -/
def handle_pdf_compress (env : Env) (fileData : Bytes) (opts : Options) :
    ServiceResult :=
  if fileData.length = 0 then
    { success := false, originalSize := none, compressedSize := none,
      compressionPct := none, payload := none,
      errorMsg := some "No file data provided" }
  else if env.depsOk = true then
    let r := compress_pdf env fileData opts
    let reductionPct : ℚ :=
      if 0 < fileData.length then
        (((fileData.length : ℚ) - (r.1.length : ℚ)) / (fileData.length : ℚ)) * 100
      else 0
    { success := true, originalSize := some fileData.length,
      compressedSize := some r.1.length,
      compressionPct := some reductionPct,
      payload := some r.1, errorMsg := none }
  else
    { success := false, originalSize := none, compressedSize := none,
      compressionPct := none, payload := none,
      errorMsg := some ("Dependencies not available: " ++ env.depsMsg) }

/-!
Mutable-dictionary model for the GS_LEVELS mutation claim.  Python
dicts are heap objects accessed through references; `dict(d)` allocates
a fresh object, while item assignment writes through the reference.
The heap holds the profile dictionaries; `gsLevelRefs` is the module
dict mapping level names to the references of its four profiles.
-/

/-- A heap of profile dictionaries, addressed by list index. -/
structure Heap where
  cells : List Profile
deriving DecidableEq

/-- `dict(p)`: allocate a fresh copy, return the new reference. -/
def Heap.alloc (h : Heap) (p : Profile) : Heap × Nat :=
  (⟨h.cells ++ [p]⟩, h.cells.length)

/-- Item assignment through a reference. -/
def Heap.write (h : Heap) (r : Nat) (p : Profile) : Heap :=
  ⟨h.cells.set r p⟩

/-- Dereference. -/
def Heap.read (h : Heap) (r : Nat) : Option Profile :=
  h.cells[r]?

/-- The module-level GS_LEVELS dict as name → reference. -/
def gsLevelRefs : List (String × Nat) :=
  [("low", 0), ("medium", 1), ("high", 2), ("maximum", 3)]

/-- The heap as initialized at import time (service.py:106-135). -/
def gsHeap0 : Heap :=
  ⟨[lowProfile, mediumProfile, highProfile, maximumProfile]⟩

/-- The option-resolution step of compress_pdf (service.py:153-160)
against the heap: `cfg = dict(GS_LEVELS.get(level, GS_LEVELS["medium"]))`
allocates a request-scoped copy, and the quality override writes only
through the copy's reference. -/
def resolveCfgStep (h : Heap) (opts : Options) : Heap × Nat :=
  let baseRef := (gsLevelRefs.lookup (resolveLevel opts.level)).getD
    ((gsLevelRefs.lookup "medium").getD 0)
  let baseVal := (h.read baseRef).getD mediumProfile
  let alloc := h.alloc baseVal
  match opts.imageQuality with
  | some n => (alloc.1.write alloc.2 { baseVal with JPEGQuality := clampQuality n }, alloc.2)
  | none => alloc

/-- Options with every key absent. -/
def defaultOpts : Options :=
  { level := none, imageQuality := none, removeMetadata := none,
    optimizeEmbeddedImages := none }

/-- A removeMetadata request. -/
def metadataOpts : Options :=
  { level := none, imageQuality := none, removeMetadata := some true,
    optimizeEmbeddedImages := none }

/-- An imageQuality override of 10.75 (exactly representable as a
Python float). -/
def cexQualityOpts : Options :=
  { level := some "medium", imageQuality := some (PyNum.float (43/4)),
    removeMetadata := none, optimizeEmbeddedImages := none }

/-- A maximum-level request with a quality override, used to probe the
GS_LEVELS table for mutation. -/
def mutationProbeOpts : Options :=
  { level := some "maximum", imageQuality := some (PyNum.int 40),
    removeMetadata := none, optimizeEmbeddedImages := none }

/-- A world whose qpdf rejects every input (a non-PDF byte sequence). -/
def envQpdfRejects : Env :=
  { qpdf := fun _ => Except.error "bad pdf",
    gs := fun _ b => Except.ok b,
    pikepdfProcess := fun b => Except.ok b,
    depsOk := true, depsMsg := "All dependencies available" }

/-- A world whose qpdf succeeds (producing a two-byte file) and whose
Ghostscript exits non-zero. -/
def envGsRejects : Env :=
  { qpdf := fun _ => Except.ok [9, 9],
    gs := fun _ _ => Except.error "gs boom",
    pikepdfProcess := fun b => Except.ok b,
    depsOk := true, depsMsg := "All dependencies available" }

/-- A world where every engine succeeds and behaves as the identity. -/
def envAllOk : Env :=
  { qpdf := fun b => Except.ok b,
    gs := fun _ b => Except.ok b,
    pikepdfProcess := fun b => Except.ok b,
    depsOk := true, depsMsg := "All dependencies available" }

/-- A world where both engines succeed but pikepdf raises while
stripping metadata. -/
def envStripFails : Env :=
  { qpdf := fun _ => Except.ok [7, 7, 7, 7],
    gs := fun _ _ => Except.ok [7, 7],
    pikepdfProcess := fun _ => Except.error "pikepdf failed",
    depsOk := true, depsMsg := "All dependencies available" }

/-- C3: whenever both the lossless (qpdf) output and the lossy (gs)
output exist, compress_pdf's selection step keeps the strictly smaller
artifact, and on a size tie it keeps the lossless one. -/
theorem chosen_artifact_smaller (q g : Bytes) :
    (g.length < q.length → chosenArtifact q g = g) ∧
    (q.length < g.length → chosenArtifact q g = q) ∧
    (q.length = g.length → chosenArtifact q g = q) := by
  refine ⟨fun h => ?_, fun h => ?_, fun h => ?_⟩
  · simp [chosenArtifact, h]
  · have hn : ¬ g.length < q.length := by omega
    simp [chosenArtifact, hn]
  · have hn : ¬ g.length < q.length := by omega
    simp [chosenArtifact, hn]

/-- Witness for C3 at concrete artifacts: a strictly smaller gs output
is kept, a strictly larger one is dropped, and a tie keeps the qpdf
output. -/
theorem chosen_artifact_smaller_witness :
    chosenArtifact [1, 2] [9] = [9] ∧
    chosenArtifact [1] [9, 9] = [1] ∧
    chosenArtifact [1] [9] = [1] :=
  ⟨(chosen_artifact_smaller [1, 2] [9]).1 (by decide),
   (chosen_artifact_smaller [1] [9, 9]).2.1 (by decide),
   (chosen_artifact_smaller [1] [9]).2.2 (by decide)⟩

/-- C5: _gs_lossy picks the Ghostscript preset by quality-threshold
bucketing — at most 50 gives /screen, at most 70 gives /ebook,
anything higher gives /prepress — the selected preset flag is part of
the built invocation, and the downsampling/resolution-cap flags can
appear in the invocation only when the /screen preset was selected. -/
theorem gs_preset_bucketing (cfg : Profile) (opt : Bool) :
    ("-dPDFSETTINGS=" ++ pdfSetting cfg.JPEGQuality) ∈ gsCmd cfg opt "qpdf.pdf" "gs.pdf" ∧
    (cfg.JPEGQuality ≤ 50 → pdfSetting cfg.JPEGQuality = "/screen") ∧
    (50 < cfg.JPEGQuality → cfg.JPEGQuality ≤ 70 → pdfSetting cfg.JPEGQuality = "/ebook") ∧
    (70 < cfg.JPEGQuality → pdfSetting cfg.JPEGQuality = "/prepress") ∧
    (opt = true ∧ cfg.JPEGQuality ≤ 50 →
      gsCmd cfg opt "qpdf.pdf" "gs.pdf"
        = gsBase cfg ++ downsampleArgs cfg ++ gsOutArgs "qpdf.pdf" "gs.pdf") ∧
    ("-dDownsampleColorImages=true" ∈ gsCmd cfg opt "qpdf.pdf" "gs.pdf" →
      pdfSetting cfg.JPEGQuality = "/screen") := by
  refine ⟨?_, fun h => ?_, fun h1 h2 => ?_, fun h => ?_, fun h => ?_, fun hmem => ?_⟩
  · simp [gsCmd, gsBase]
  · simp [pdfSetting, h]
  · have hn : ¬ cfg.JPEGQuality ≤ 50 := by omega
    simp [pdfSetting, hn, h2]
  · have hn50 : ¬ cfg.JPEGQuality ≤ 50 := by omega
    have hn70 : ¬ cfg.JPEGQuality ≤ 70 := by omega
    simp [pdfSetting, hn50, hn70]
  · simp [gsCmd, h]
  · by_cases hc : opt = true ∧ cfg.JPEGQuality ≤ 50
    · simp [pdfSetting, hc.2]
    · exfalso
      rw [gsCmd, if_neg hc] at hmem
      by_cases h50 : cfg.JPEGQuality ≤ 50
      · simp [gsBase, gsOutArgs, pdfSetting, h50] at hmem
      · by_cases h70 : cfg.JPEGQuality ≤ 70
        · simp [gsBase, gsOutArgs, pdfSetting, h50, h70] at hmem
        · simp [gsBase, gsOutArgs, pdfSetting, h50, h70] at hmem

/-- Witness for C5 on the built-in profiles: maximum (quality 30) gets
/screen, medium (quality 70) gets /ebook, low (quality 85) gets
/prepress, and with optimization on, the maximum profile's invocation
carries the downsampling flags. -/
theorem gs_preset_bucketing_witness :
    pdfSetting maximumProfile.JPEGQuality = "/screen" ∧
    pdfSetting mediumProfile.JPEGQuality = "/ebook" ∧
    pdfSetting lowProfile.JPEGQuality = "/prepress" ∧
    gsCmd maximumProfile true "qpdf.pdf" "gs.pdf"
      = gsBase maximumProfile ++ downsampleArgs maximumProfile ++ gsOutArgs "qpdf.pdf" "gs.pdf" :=
  ⟨(gs_preset_bucketing maximumProfile true).2.1 (by decide),
   (gs_preset_bucketing mediumProfile true).2.2.1 (by decide) (by decide),
   (gs_preset_bucketing lowProfile true).2.2.2.1 (by decide),
   (gs_preset_bucketing maximumProfile true).2.2.2.2.1 (by decide)⟩

/-- C10: when the resolved JPEG quality exceeds 50, the
optimizeEmbeddedImages flag has no effect — _gs_lossy builds the same
argument list and behaves identically for both flag values — and the
downsampling/resolution-cap block is appended exactly when the flag is
set and the quality is at most 50. -/
theorem optimize_images_noop_above_50 (cfg : Profile) (env : Env) (b : Bytes) :
    (50 < cfg.JPEGQuality →
      gsCmd cfg true "qpdf.pdf" "gs.pdf" = gsCmd cfg false "qpdf.pdf" "gs.pdf" ∧
      gsLossy env cfg true b = gsLossy env cfg false b) ∧
    (∀ opt : Bool, opt = true ∧ cfg.JPEGQuality ≤ 50 →
      gsCmd cfg opt "qpdf.pdf" "gs.pdf"
        = gsBase cfg ++ downsampleArgs cfg ++ gsOutArgs "qpdf.pdf" "gs.pdf") ∧
    (∀ opt : Bool, ¬(opt = true ∧ cfg.JPEGQuality ≤ 50) →
      gsCmd cfg opt "qpdf.pdf" "gs.pdf" = gsBase cfg ++ gsOutArgs "qpdf.pdf" "gs.pdf") := by
  have hcmd : ∀ opt : Bool, ¬(opt = true ∧ cfg.JPEGQuality ≤ 50) →
      gsCmd cfg opt "qpdf.pdf" "gs.pdf" = gsBase cfg ++ gsOutArgs "qpdf.pdf" "gs.pdf" := by
    intro opt hn
    simp [gsCmd, hn]
  refine ⟨fun h => ?_, fun opt hc => by simp [gsCmd, hc], hcmd⟩
  have ht : gsCmd cfg true "qpdf.pdf" "gs.pdf" = gsBase cfg ++ gsOutArgs "qpdf.pdf" "gs.pdf" :=
    hcmd true (by simp; omega)
  have hf : gsCmd cfg false "qpdf.pdf" "gs.pdf" = gsBase cfg ++ gsOutArgs "qpdf.pdf" "gs.pdf" :=
    hcmd false (by simp)
  have heq : gsCmd cfg true "qpdf.pdf" "gs.pdf" = gsCmd cfg false "qpdf.pdf" "gs.pdf" :=
    ht.trans hf.symm
  exact ⟨heq, by simp only [gsLossy, heq]⟩

/-- Witness for C10: at quality 70 (medium) the two invocations agree
and the lossy pass is flag-independent; at quality 30 (maximum) the
flag adds exactly the downsampling block. -/
theorem optimize_images_noop_above_50_witness :
    gsCmd mediumProfile true "qpdf.pdf" "gs.pdf" = gsCmd mediumProfile false "qpdf.pdf" "gs.pdf" ∧
    gsLossy envAllOk mediumProfile true [1] = gsLossy envAllOk mediumProfile false [1] ∧
    gsCmd maximumProfile true "qpdf.pdf" "gs.pdf"
      = gsBase maximumProfile ++ downsampleArgs maximumProfile ++ gsOutArgs "qpdf.pdf" "gs.pdf" ∧
    gsCmd maximumProfile false "qpdf.pdf" "gs.pdf"
      = gsBase maximumProfile ++ gsOutArgs "qpdf.pdf" "gs.pdf" :=
  ⟨((optimize_images_noop_above_50 mediumProfile envAllOk [1]).1 (by decide)).1,
   ((optimize_images_noop_above_50 mediumProfile envAllOk [1]).1 (by decide)).2,
   (optimize_images_noop_above_50 maximumProfile envAllOk [1]).2.1 true (by decide),
   (optimize_images_noop_above_50 maximumProfile envAllOk [1]).2.2 false (by decide)⟩

/-- C6: the metadata stripper is total — when the pikepdf block
succeeds its output is taken, and when it raises, the input bytes are
copied verbatim to the output (an output always exists) and a warning
line is printed instead of propagating the exception. -/
theorem strip_metadata_never_raises (process : Bytes → Except String Bytes) (b : Bytes) :
    (∀ out, process b = Except.ok out → stripMetadata process b = (out, [])) ∧
    (∀ e, process b = Except.error e →
      stripMetadata process b
        = (b, [⟨Channel.stdout, "Warning: Metadata removal failed: " ++ e⟩])) := by
  constructor
  · intro out hx
    simp [stripMetadata, hx]
  · intro e hx
    simp [stripMetadata, hx]

/-- Witness for C6: a pikepdf block that raises leaves the input bytes
as output with the warning line; a successful one passes its result
through. -/
theorem strip_metadata_never_raises_witness :
    stripMetadata (fun _ => Except.error "boom") [1, 2]
      = ([1, 2], [⟨Channel.stdout, "Warning: Metadata removal failed: boom"⟩]) ∧
    stripMetadata (fun b => Except.ok (b ++ [0])) [1, 2] = ([1, 2, 0], []) :=
  ⟨(strip_metadata_never_raises (fun _ => Except.error "boom") [1, 2]).2 "boom" rfl,
   (strip_metadata_never_raises (fun b => Except.ok (b ++ [0])) [1, 2]).1 [1, 2, 0] rfl⟩

/-- Counterexample to C1: with qpdf rejecting the input, compress_pdf
does hand back the original bytes, but the caller-visible result of the
service still says success with no error message — not success=false. -/
theorem lossless_failure_success_flag_cex :
    (compress_pdf envQpdfRejects [1, 2, 3] defaultOpts).1 = [1, 2, 3] ∧
    (mainRun envQpdfRejects [1, 2, 3] defaultOpts).1.success = true ∧
    (mainRun envQpdfRejects [1, 2, 3] defaultOpts).1.errorMsg = none ∧
    (handle_pdf_compress envQpdfRejects [1, 2, 3] defaultOpts).success = true := by
  exact ⟨rfl, rfl, rfl, rfl⟩

/-- C1 as amended: when the lossless pass fails on a non-empty input,
the pipeline returns the original bytes exactly, and the caller-visible
result — of the CLI service and of the route handler alike — reports
success=true with no error message, a reduction of exactly 0 and the
original bytes as payload; every diagnostic line of such a run goes to
stderr, so the failure is visible only on the diagnostic channel, not
in the result. -/
theorem lossless_failure_returns_input_success_true (env : Env) (b : Bytes)
    (opts : Options) (e : String)
    (hq : env.qpdf b = Except.error e) (hb : b.length ≠ 0)
    (hd : env.depsOk = true) :
    (compress_pdf env b opts).1 = b ∧
    (mainRun env b opts).1.success = true ∧
    (mainRun env b opts).1.errorMsg = none ∧
    (mainRun env b opts).1.compressionPct = some 0 ∧
    (mainRun env b opts).1.payload = some b ∧
    (handle_pdf_compress env b opts).success = true ∧
    (handle_pdf_compress env b opts).errorMsg = none ∧
    (handle_pdf_compress env b opts).compressionPct = some 0 ∧
    (handle_pdf_compress env b opts).payload = some b ∧
    (∀ l ∈ (compress_pdf env b opts).2, l.chan = Channel.stderr) := by
  have hc : (compress_pdf env b opts).1 = b := by
    simp [compress_pdf, hq]
  have hpct : (((b.length : ℚ) - ((compress_pdf env b opts).1.length : ℚ)) / (b.length : ℚ)) * 100 = 0 := by
    rw [hc]
    simp
  have hpos : 0 < b.length := Nat.pos_of_ne_zero hb
  refine ⟨hc, ?_, ?_, ?_, ?_, ?_, ?_, ?_, ?_, ?_⟩
  · simp [mainRun, hd, hb, hc, hpct]
  · simp [mainRun, hd, hb, hc, hpct]
  · simp [mainRun, hd, hb, hc, hpct]
  · simp [mainRun, hd, hb, hc, hpct]
  · simp [handle_pdf_compress, hd, hb, hc, hpct, hpos]
  · simp [handle_pdf_compress, hd, hb, hc, hpct, hpos]
  · simp [handle_pdf_compress, hd, hb, hc, hpct, hpos]
  · simp [handle_pdf_compress, hd, hb, hc, hpct, hpos]
  · intro l hl
    simp [compress_pdf, hq] at hl
    rcases hl with h | h | h <;> simp [h]

/-- Witness for C1 as amended, at a concrete rejected input, covering
both callers. -/
theorem lossless_failure_returns_input_success_true_witness :
    (compress_pdf envQpdfRejects [4, 5] defaultOpts).1 = [4, 5] ∧
    (mainRun envQpdfRejects [4, 5] defaultOpts).1.success = true ∧
    (mainRun envQpdfRejects [4, 5] defaultOpts).1.compressionPct = some 0 ∧
    (handle_pdf_compress envQpdfRejects [4, 5] defaultOpts).success = true ∧
    (handle_pdf_compress envQpdfRejects [4, 5] defaultOpts).errorMsg = none ∧
    (handle_pdf_compress envQpdfRejects [4, 5] defaultOpts).compressionPct = some 0 ∧
    (handle_pdf_compress envQpdfRejects [4, 5] defaultOpts).payload = some [4, 5] :=
  have h := lossless_failure_returns_input_success_true envQpdfRejects [4, 5]
    defaultOpts "bad pdf" rfl (by decide) rfl
  ⟨h.1, h.2.1, h.2.2.2.1, h.2.2.2.2.2.1, h.2.2.2.2.2.2.1,
   h.2.2.2.2.2.2.2.1, h.2.2.2.2.2.2.2.2.1⟩

/-- Counterexample to C2: with qpdf producing [9, 9] and Ghostscript
failing, compress_pdf returns the original input [1, 2, 3] — the
lossless output is not carried forward. -/
theorem lossy_failure_fallback_cex :
    envGsRejects.qpdf [1, 2, 3] = Except.ok [9, 9] ∧
    (compress_pdf envGsRejects [1, 2, 3] defaultOpts).1 = [1, 2, 3] ∧
    ([1, 2, 3] : Bytes) ≠ [9, 9] := by
  exact ⟨rfl, rfl, by decide⟩

/-- C2 as amended: when the lossless pass succeeds on a non-empty input
and the lossy pass then fails, the pipeline aborts to its outer
exception handler and returns the original input bytes — the lossless
output is discarded, not carried forward. -/
theorem lossy_failure_returns_original_input (env : Env) (b qout : Bytes)
    (opts : Options) (e : String)
    (hb : b.length ≠ 0)
    (hq : env.qpdf b = Except.ok qout)
    (hg : env.gs (gsCmd (resolveCfg opts) (opts.optimizeEmbeddedImages.getD true)
      "qpdf.pdf" "gs.pdf") qout = Except.error e) :
    (compress_pdf env b opts).1 = b := by
  simp [compress_pdf, hq, hb, gsLossy, hg]

/-- Witness for C2 as amended, at a concrete failing Ghostscript. -/
theorem lossy_failure_returns_original_input_witness :
    (compress_pdf envGsRejects [1, 2, 3] defaultOpts).1 = [1, 2, 3] :=
  lossy_failure_returns_original_input envGsRejects [1, 2, 3] [9, 9] defaultOpts
    "gs boom" (by decide) rfl rfl

/-- Counterexample to C4: an imageQuality override of 10.75 resolves to
quality 10 (Python int() truncates toward zero) while the spec's
rounding to the nearest integer would give 11. -/
theorem image_quality_rounding_cex :
    (resolveCfg cexQualityOpts).JPEGQuality = 10 ∧
    specResolveQuality (43/4) = 11 ∧
    (10 : ℤ) ≠ 11 := by
  refine ⟨?_, ?_, by decide⟩
  · simp [resolveCfg, cexQualityOpts, clampQuality, pyInt, lookupLevel, resolveLevel, pyLower]
    norm_num
  · rw [specResolveQuality, round_eq]
    norm_num

/-- C4 as amended: a numeric imageQuality override resolves to the
override truncated toward zero (Python int()) and clamped into
[10, 95] — integer overrides are taken as-is, so 30 gives exactly 30 at
every level, values at most 10 give 10 and values at least 95 give
95 — and no other field of the profile is altered. -/
theorem image_quality_override_truncates_clamps (lvl : Option String) (n : PyNum)
    (rm oi : Option Bool) :
    (resolveCfg ⟨lvl, some n, rm, oi⟩).JPEGQuality = max 10 (min 95 (pyInt n)) ∧
    (resolveCfg ⟨lvl, some n, rm, oi⟩).ColorImageResolution
      = (lookupLevel (resolveLevel lvl)).ColorImageResolution ∧
    (resolveCfg ⟨lvl, some n, rm, oi⟩).GrayImageResolution
      = (lookupLevel (resolveLevel lvl)).GrayImageResolution ∧
    (resolveCfg ⟨lvl, some n, rm, oi⟩).MonoImageResolution
      = (lookupLevel (resolveLevel lvl)).MonoImageResolution ∧
    (resolveCfg ⟨lvl, some n, rm, oi⟩).UseJPX = (lookupLevel (resolveLevel lvl)).UseJPX ∧
    (pyInt n = 30 → (resolveCfg ⟨lvl, some n, rm, oi⟩).JPEGQuality = 30) ∧
    (pyInt n ≤ 10 → (resolveCfg ⟨lvl, some n, rm, oi⟩).JPEGQuality = 10) ∧
    (95 ≤ pyInt n → (resolveCfg ⟨lvl, some n, rm, oi⟩).JPEGQuality = 95) := by
  refine ⟨?_, ?_, ?_, ?_, ?_, fun h => ?_, fun h => ?_, fun h => ?_⟩ <;>
    simp [resolveCfg, clampQuality] <;> omega

/-- Witness for C4 as amended: with level "low", an integer override of
30 gives 30, 7 clamps up to 10, 99 clamps down to 95. -/
theorem image_quality_override_truncates_clamps_witness :
    (resolveCfg ⟨some "low", some (PyNum.int 30), none, none⟩).JPEGQuality = 30 ∧
    (resolveCfg ⟨some "low", some (PyNum.int 7), none, none⟩).JPEGQuality = 10 ∧
    (resolveCfg ⟨some "low", some (PyNum.int 99), none, none⟩).JPEGQuality = 95 :=
  ⟨(image_quality_override_truncates_clamps (some "low") (PyNum.int 30) none none).2.2.2.2.2.1
      (by decide),
   (image_quality_override_truncates_clamps (some "low") (PyNum.int 7) none none).2.2.2.2.2.2.1
      (by decide),
   (image_quality_override_truncates_clamps (some "low") (PyNum.int 99) none none).2.2.2.2.2.2.2
      (by decide)⟩

/-- C7 is a code bug: on a removeMetadata run whose pikepdf block
raises, the warning line is printed with a bare print — on standard
output — while the same run's result is still reported as a success,
so the structured stdout payload is polluted by a diagnostic line. -/
theorem strip_warning_printed_to_stdout :
    (⟨Channel.stdout, "Warning: Metadata removal failed: pikepdf failed"⟩ : LogEntry)
      ∈ (compress_pdf envStripFails [1, 2, 3] metadataOpts).2 ∧
    (mainRun envStripFails [1, 2, 3] metadataOpts).1.success = true := by
  exact ⟨by decide, rfl⟩

/-- Counterexample to C8: for an empty input neither caller reports a
reduction of 0 — the CLI service's unguarded ratio computation raises
ZeroDivisionError, reported as an error result, and the route handler
rejects the input before any ratio is computed. -/
theorem empty_input_no_zero_percent_cex :
    (mainRun envAllOk [] defaultOpts).1.success = false ∧
    (mainRun envAllOk [] defaultOpts).1.compressionPct = none ∧
    (mainRun envAllOk [] defaultOpts).1.errorMsg = some "division by zero" ∧
    (handle_pdf_compress envAllOk [] defaultOpts).success = false ∧
    (handle_pdf_compress envAllOk [] defaultOpts).compressionPct = none := by
  exact ⟨rfl, rfl, rfl, rfl, rfl⟩

/-- C8 as amended: the route handler's ratio expression carries a zero
guard but an empty input never reaches it — the route rejects empty
input up front with success=false and no ratio — while the CLI
service's ratio computation is unguarded: an empty input raises
ZeroDivisionError, which the generic handler reports as success=false
with an error message; no ratio of 0 is reported by either caller. -/
theorem empty_input_error_not_zero_percent (env : Env) (b : Bytes) (opts : Options)
    (hb : b.length = 0) :
    (handle_pdf_compress env b opts).success = false ∧
    (handle_pdf_compress env b opts).compressionPct = none ∧
    (handle_pdf_compress env b opts).errorMsg = some "No file data provided" ∧
    (mainRun env b opts).1.success = false ∧
    (mainRun env b opts).1.compressionPct = none ∧
    (env.depsOk = true → (mainRun env b opts).1.errorMsg = some "division by zero") := by
  cases hd : env.depsOk <;>
    simp [handle_pdf_compress, mainRun, hb, hd]

/-- Witness for C8 as amended, at the empty byte sequence. -/
theorem empty_input_error_not_zero_percent_witness :
    (handle_pdf_compress envAllOk [] defaultOpts).success = false ∧
    (mainRun envAllOk [] defaultOpts).1.success = false ∧
    (mainRun envAllOk [] defaultOpts).1.errorMsg = some "division by zero" :=
  have h := empty_input_error_not_zero_percent envAllOk [] defaultOpts rfl
  ⟨h.1, h.2.2.2.1, h.2.2.2.2.2 rfl⟩

/-- C9: the option-resolution step of compress_pdf never mutates the
GS_LEVELS table — it writes only through the freshly allocated
request-scoped copy, so every pre-existing profile dictionary reads the
same before and after, for every heap and every options dict. -/
theorem gs_levels_unchanged_by_resolve (h : Heap) (opts : Options) (r : Nat)
    (hr : r < h.cells.length) :
    ((resolveCfgStep h opts).1).read r = h.read r := by
  unfold resolveCfgStep Heap.read Heap.alloc Heap.write
  cases opts.imageQuality with
  | none =>
      simp only
      exact List.getElem?_append_left hr
  | some n =>
      simp only
      rw [List.getElem?_set_ne (by omega)]
      exact List.getElem?_append_left hr

/-- Witness for C9: after resolving a maximum-level request with a
quality override against the initial heap, the "maximum" profile still
reads back unchanged. -/
theorem gs_levels_unchanged_by_resolve_witness :
    ((resolveCfgStep gsHeap0 mutationProbeOpts).1).read 3 = some maximumProfile ∧
    gsHeap0.read 3 = some maximumProfile :=
  ⟨(gs_levels_unchanged_by_resolve gsHeap0 mutationProbeOpts 3 (by decide)).trans rfl, rfl⟩

end FileFlow
